import Mathlib

/-!
# Verification of the function-grapher application

Shallow embedding of the three source files of the repository
(`main.py`, `graficar_funciones/backend.py`, `gui_usuario/backend.py`).

The application delegates all symbolic mathematics to an external library
(SymPy) and all drawing to an external plotting library (matplotlib).
Those libraries are external to the repository and opaque to the
application, so they are modelled as an abstract interface `SymLib` over
an abstract expression type: the embedding is parametric in the library,
exactly as the glue code is.  Numeric sample values are modelled as exact
rationals (`Rat`).  Library calls that can raise a Python exception are
modelled in `Except Err`; the exception payload is an opaque string.

Mutable GUI state is modelled by explicit state passing: `AppState`
carries the matplotlib figure owned by the application, the content last
drawn onto the Tk canvas (what the user actually sees), a redraw counter
and the console output, and the two button callbacks of `main.py` are
state transformers on it.
-/

namespace Graficador

/-- Exception payloads raised by the external libraries, kept opaque. -/
abbrev Err := String

/-- Interface of the external symbolic-math / numeric libraries used by
`graficar_funciones/backend.py` (SymPy's `sympify`, `diff`, `integrate`,
`latex` and `lambdify`).  Calls that may raise are in `Except Err`; a
lambdified callable may also fail at a sample point. -/
structure SymLib (Expr : Type) where
  sympify : String → Except Err Expr
  diff : Expr → Except Err Expr
  integrate : Expr → Except Err Expr
  lambdify : Expr → Rat → Except Err Rat
  latex : Expr → String

variable {Expr : Type}

/-- `string_to_symbolic` from `graficar_funciones/backend.py`:
`return sympify(string_function)`. -/
def string_to_symbolic (lib : SymLib Expr) (string_function : String) :
    Except Err Expr :=
  lib.sympify string_function

/-- `symbolic_to_callable` from `graficar_funciones/backend.py`:
`return lambdify(var_x, symbolic_function, "numpy")`. -/
def symbolic_to_callable (lib : SymLib Expr) (symbolic_function : Expr) :
    Rat → Except Err Rat :=
  lib.lambdify symbolic_function

/-- The `Function` class of `graficar_funciones/backend.py`: a plotted
function record holding a display color, the symbolic expression and its
lambdified callable form. -/
structure Function (Expr : Type) where
  color : String
  symbolic_function : Expr
  callable_function : Rat → Except Err Rat

/-- `Function.__init__`: stores the color, the symbolic expression and
`symbolic_to_callable(symbolic_function)`.  The Python parameter `color`
defaults to `"blue"`; call sites that rely on the default pass `"blue"`
explicitly here. -/
def Function.init (lib : SymLib Expr) (symbolic_function : Expr)
    (color : String) : Function Expr :=
  { color := color
    symbolic_function := symbolic_function
    callable_function := symbolic_to_callable lib symbolic_function }

/-- `Function.derive`: `derived = diff(self.symbolic_function, var_x);
return Function(derived, color="red")`.  The `diff` call may raise. -/
def Function.derive (lib : SymLib Expr) (f : Function Expr) :
    Except Err (Function Expr) :=
  (lib.diff f.symbolic_function).map fun derived =>
    Function.init lib derived "red"

/-- `Function.integrate`: `integral = integrate(self.symbolic_function,
var_x); return Function(integral, color="green")`. -/
def Function.integrate (lib : SymLib Expr) (f : Function Expr) :
    Except Err (Function Expr) :=
  (lib.integrate f.symbolic_function).map fun integral =>
    Function.init lib integral "green"

/-- `Function.evaluate`: applies the stored callable to every sample
point (NumPy applies the lambdified function elementwise to the array);
any failing point raises out of the call. -/
def Function.evaluate (f : Function Expr) (x_vals : List Rat) :
    Except Err (List Rat) :=
  x_vals.mapM f.callable_function

/-- `np.linspace a b n`: `n` evenly spaced samples from `a` to `b`
inclusive, modelled over exact rationals. -/
def linspace (a b : Rat) (n : Nat) : List Rat :=
  (List.range n).map fun i : Nat => a + (b - a) * (i : Rat) / ((n : Rat) - 1)

/-- `np.arange a b step`: samples `a, a+step, ...` strictly below `b`. -/
def arange (a b step : Rat) : List Rat :=
  (List.range ((b - a) / step).ceil.toNat).map fun i : Nat => a + step * (i : Rat)

/-- One curve held by the matplotlib axes: the sample points handed to
`axe.plot`, its LaTeX label and its color. -/
structure Curve where
  xpoints : List Rat
  ypoints : List Rat
  label : String
  color : String
deriving DecidableEq

/-- State of the single matplotlib axes object of `FigureBuilder`. -/
structure AxesState where
  xlabel : String
  ylabel : String
  xlim : Rat × Rat
  ylim : Rat × Rat
  xticks : List Rat
  yticks : List Rat
  hlines : List Rat
  vlines : List Rat
  grid : Bool
  legend : Bool
  curves : List Curve

/-- A freshly created (or `cla()`-reset) matplotlib axes: default limits,
no labels, no ticks set, no artists, no legend. -/
def AxesState.fresh : AxesState :=
  { xlabel := "", ylabel := "", xlim := (0, 1), ylim := (0, 1)
    xticks := [], yticks := [], hlines := [], vlines := []
    grid := false, legend := false, curves := [] }

/-- `FigureBuilder._configure_axes`: labels, limits −50..50 on both axes,
ticks every 10, the two gray zero-lines and the background grid. -/
def configure_axes (ax : AxesState) : AxesState :=
  { ax with
    xlabel := "x", ylabel := "f(x)"
    xlim := (-50, 50), ylim := (-50, 50)
    xticks := arange (-50) 51 10, yticks := arange (-50) 51 10
    hlines := ax.hlines ++ [0], vlines := ax.vlines ++ [0]
    grid := true }

/-- The `FigureBuilder` class: one figure with one axes. -/
structure FigureBuilder where
  axe : AxesState

/-- `FigureBuilder.__init__`: creates the figure and axes and calls
`_configure_axes`. -/
def FigureBuilder.init : FigureBuilder :=
  { axe := configure_axes AxesState.fresh }

/-- The curve that `axe.plot(xpoints, ypoints, label=..., color=...)`
adds for one function record with its evaluated samples. -/
def mkCurve (lib : SymLib Expr) (f : Function Expr) (ypoints : List Rat) :
    Curve :=
  { xpoints := linspace (-50) 50 300, ypoints := ypoints
    label := "$" ++ lib.latex f.symbolic_function ++ "$"
    color := f.color }

/-- The body of the `for` loop of `FigureBuilder.plot_function`: for each
function, sample `np.linspace(-50, 50, 300)`, evaluate, and append the
curve.  Evaluation may raise mid-loop, in which case the curves appended
so far remain on the axes and the exception propagates (second
component). -/
def plotLoop (lib : SymLib Expr) (ax : AxesState) :
    List (Function Expr) → AxesState × Option Err
  | [] => (ax, none)
  | f :: rest =>
    let xpoints := linspace (-50) 50 300
    match f.evaluate xpoints with
    | .error e => (ax, some e)
    | .ok ypoints =>
      plotLoop lib
        { ax with curves := ax.curves ++ [mkCurve lib f ypoints] } rest

/-- `FigureBuilder.plot_function`: runs the plot loop over the list and,
when no exception was raised, calls `axe.legend()`. -/
def FigureBuilder.plot_function (lib : SymLib Expr) (fb : FigureBuilder)
    (functions : List (Function Expr)) : FigureBuilder × Option Err :=
  match plotLoop lib fb.axe functions with
  | (ax, none) => ({ axe := { ax with legend := true } }, none)
  | (ax, some e) => ({ axe := ax }, some e)

/-- `FigureBuilder.clear`: `self.axe.cla()` resets the axes to a fresh
state, then `_configure_axes()` restores the fixed configuration. -/
def FigureBuilder.clear (_fb : FigureBuilder) : FigureBuilder :=
  { axe := configure_axes AxesState.fresh }

/-- The user-facing inputs read by `InputAndOptions.get_data` in
`gui_usuario/backend.py`: the text field and the two checkboxes. -/
structure InputData where
  funcion : String
  derivar : Bool
  integrar : Bool

/-- Whole-application state visible in `main.py`: the figure mutated by
the handlers, the figure content last drawn onto the Tk canvas
(`GraphicCanvas` redraws only in `update_graphic`, so this is what the
user sees), the number of redraws, and the console output. -/
structure AppState (Expr : Type) where
  figure : FigureBuilder
  rendered : FigureBuilder
  redrawCount : Nat
  console : List String

/-- `GraphicCanvas.update_graphic` / the initial `canvas_widget.draw()`:
redraws the canvas from the current figure. -/
def update_graphic (s : AppState Expr) : AppState Expr :=
  { s with rendered := s.figure, redrawCount := s.redrawCount + 1 }

/-- Application state right after `main()` builds the GUI: a fresh
configured figure, drawn once by `GraphicCanvas.__init__`. -/
def initState (Expr : Type) : AppState Expr :=
  update_graphic
    { figure := FigureBuilder.init, rendered := FigureBuilder.init
      redrawCount := 0, console := [] }

/-- The record-building half of `boton_graficar` in `main.py`: if the
text field is non-empty (Python string truthiness), parse it, wrap it in
a `Function` (default color `"blue"`), and append the derivative and/or
integral records as requested; any raised exception aborts the whole
build. -/
def computeFunciones (lib : SymLib Expr) (data : InputData) :
    Except Err (List (Function Expr)) :=
  if data.funcion ≠ "" then
    match string_to_symbolic lib data.funcion with
    | .error e => .error e
    | .ok simb =>
      let f := Function.init lib simb "blue"
      let l1 := [f]
      match if data.derivar then (f.derive lib).map (l1 ++ [·]) else .ok l1 with
      | .error e => .error e
      | .ok l2 =>
        match if data.integrar then (f.integrate lib).map (l2 ++ [·]) else .ok l2 with
        | .error e => .error e
        | .ok l3 => .ok l3
  else .ok []

/-- `boton_graficar` from `main.py`: build the record list; if it raised,
the handler prints the error and nothing else happened.  Otherwise, when
the list is non-empty, clear the figure, plot the list (a mid-loop
exception leaves the partially plotted figure and skips the redraw, the
handler printing the error), and on success redraw the canvas. -/
def boton_graficar (lib : SymLib Expr) (data : InputData)
    (s : AppState Expr) : AppState Expr :=
  match computeFunciones lib data with
  | .error e => { s with console := s.console ++ ["Error: " ++ e] }
  | .ok funciones =>
    if funciones.isEmpty then s
    else
      let fb1 := s.figure.clear
      match fb1.plot_function lib funciones with
      | (fb2, some e) =>
        { s with figure := fb2, console := s.console ++ ["Error: " ++ e] }
      | (fb2, none) => update_graphic { s with figure := fb2 }

/-- `boton_limpiar` from `main.py`: clear the figure and redraw. -/
def boton_limpiar (s : AppState Expr) : AppState Expr :=
  update_graphic { s with figure := s.figure.clear }

/-- One user interaction: a press of the plot button (with whatever the
text field and checkboxes hold at that moment) or of the clear button. -/
inductive Step (lib : SymLib Expr) : AppState Expr → AppState Expr → Prop
  | graficar (data : InputData) (s : AppState Expr) :
      Step lib s (boton_graficar lib data s)
  | limpiar (s : AppState Expr) :
      Step lib s (boton_limpiar s)

/-- States reachable from the freshly built GUI by button presses. -/
def Reachable (lib : SymLib Expr) (s : AppState Expr) : Prop :=
  Relation.ReflTransGen (Step lib) (initState Expr) s

/-- The evaluation results a plot action needs: `f.evaluate` of every
record over the fixed sample grid, aborting at the first failure exactly
as the loop of `plot_function` does. -/
def evalGrid : List (Function Expr) → Except Err (List (List Rat))
  | [] => .ok []
  | f :: rest =>
    match f.evaluate (linspace (-50) 50 300) with
    | .error e => .error e
    | .ok ys =>
      match evalGrid rest with
      | .error e => .error e
      | .ok yss => .ok (ys :: yss)

/-- The exception, if any, that a press of the plot button with inputs
`data` raises into the top-level `except` handler of `boton_graficar`:
either the record build raised (`sympify`/`diff`/`integrate`), or some
evaluation inside `plot_function` raised. -/
def graficarError (lib : SymLib Expr) (data : InputData) : Option Err :=
  match computeFunciones lib data with
  | .error e => some e
  | .ok fns =>
    if fns.isEmpty then none
    else
      match evalGrid fns with
      | .error e => some e
      | .ok _ => none

/-- A concrete instantiation of the external-library interface, used to
exercise the glue code on explicit inputs: expressions are strings,
`diff`/`integrate` tag them, designated strings make each call fail, and
the lambdified callable is the identity on samples. -/
def toyLib : SymLib String where
  sympify s := if s = "bad" then .error "SympifyError" else .ok s
  diff e := if e = "nodiff" then .error "DiffError" else .ok ("D" ++ e)
  integrate e := if e = "noint" then .error "IntegrateError" else .ok ("I" ++ e)
  lambdify e := fun x => if e = "noeval" then .error "EvalError" else .ok x
  latex e := e

/-- Spec-side restatement for the refinement claim: "for every string s,
string_to_symbolic(s) = sympify(s)" — parsing is exactly the single
`sympify` call, with no retry, caching or recovery. -/
def spec_string_to_symbolic (lib : SymLib Expr) (s : String) :
    Except Err Expr :=
  lib.sympify s

/-- Spec-side restatement: "Function(e).derive() wraps diff(e, x)" — one
`diff` call, wrapped in a new red record. -/
def spec_derive (lib : SymLib Expr) (e : Expr) : Except Err (Function Expr) :=
  (lib.diff e).map fun d => Function.init lib d "red"

/-- Spec-side restatement: "Function(e).integrate() wraps
integrate(e, x)" — one `integrate` call, wrapped in a new green record. -/
def spec_integrate (lib : SymLib Expr) (e : Expr) :
    Except Err (Function Expr) :=
  (lib.integrate e).map fun i => Function.init lib i "green"

/-- Spec-side restatement: "Function(e).evaluate(xs) = lambdify(x, e)(xs)"
— evaluation is exactly the lambdified callable applied to the samples. -/
def spec_evaluate (lib : SymLib Expr) (e : Expr) (xs : List Rat) :
    Except Err (List Rat) :=
  xs.mapM (lib.lambdify e)

end Graficador

namespace Graficador

/-! ## Lemmas about the plot loop and the record builder -/

variable {Expr : Type}

theorem plotLoop_xlim (lib : SymLib Expr) (fns : List (Function Expr)) :
    ∀ ax : AxesState, ((plotLoop lib ax fns).1).xlim = ax.xlim := by
  induction fns with
  | nil => intro ax; rfl
  | cons f rest ih =>
    intro ax
    rw [plotLoop]
    cases h : f.evaluate (linspace (-50) 50 300) with
    | error e => rfl
    | ok ys => exact ih _

theorem plotLoop_ylim (lib : SymLib Expr) (fns : List (Function Expr)) :
    ∀ ax : AxesState, ((plotLoop lib ax fns).1).ylim = ax.ylim := by
  induction fns with
  | nil => intro ax; rfl
  | cons f rest ih =>
    intro ax
    rw [plotLoop]
    cases h : f.evaluate (linspace (-50) 50 300) with
    | error e => rfl
    | ok ys => exact ih _

theorem plotLoop_ok (lib : SymLib Expr) (fns : List (Function Expr)) :
    ∀ (ax : AxesState) (yss : List (List Rat)), evalGrid fns = .ok yss →
      plotLoop lib ax fns =
        ({ ax with curves :=
            ax.curves ++ (fns.zip yss).map fun p => mkCurve lib p.1 p.2 },
          none) := by
  induction fns with
  | nil =>
    intro ax yss h
    rw [evalGrid] at h
    cases h
    simp [plotLoop]
  | cons f rest ih =>
    intro ax yss h
    rw [evalGrid] at h
    cases hf : f.evaluate (linspace (-50) 50 300) with
    | error e => rw [hf] at h; cases h
    | ok ys =>
      rw [hf] at h
      cases hr : evalGrid rest with
      | error e => rw [hr] at h; cases h
      | ok yss' =>
        rw [hr] at h
        cases h
        rw [plotLoop]
        simp only [hf]
        rw [ih _ _ hr]
        simp

theorem plotLoop_err (lib : SymLib Expr) (fns : List (Function Expr)) :
    ∀ (ax : AxesState) (e : Err), evalGrid fns = .error e →
      (plotLoop lib ax fns).2 = some e := by
  induction fns with
  | nil => intro ax e h; rw [evalGrid] at h; cases h
  | cons f rest ih =>
    intro ax e h
    rw [evalGrid] at h
    cases hf : f.evaluate (linspace (-50) 50 300) with
    | error e0 =>
      rw [hf] at h
      cases h
      rw [plotLoop, hf]
    | ok ys =>
      rw [hf] at h
      cases hr : evalGrid rest with
      | error e0 =>
        rw [hr] at h
        cases h
        rw [plotLoop, hf]
        exact ih _ _ hr
      | ok yss' => rw [hr] at h; cases h

theorem computeFunciones_shape (lib : SymLib Expr) (d : InputData)
    (fns : List (Function Expr)) (h0 : d.funcion ≠ "")
    (h1 : computeFunciones lib d = .ok fns) :
    ∃ e dl il,
      lib.sympify d.funcion = .ok e ∧
      (d.derivar = true →
        ∃ de, lib.diff e = .ok de ∧ dl = [Function.init lib de "red"]) ∧
      (d.derivar = false → dl = []) ∧
      (d.integrar = true →
        ∃ ie, lib.integrate e = .ok ie ∧ il = [Function.init lib ie "green"]) ∧
      (d.integrar = false → il = []) ∧
      fns = Function.init lib e "blue" :: (dl ++ il) := by
  unfold computeFunciones at h1
  rw [if_pos h0] at h1
  cases hs : string_to_symbolic lib d.funcion with
  | error e => rw [hs] at h1; cases h1
  | ok simb =>
    rw [hs] at h1
    refine ⟨simb, ?_⟩
    cases hder : d.derivar with
    | false =>
      rw [hder] at h1
      simp only [if_neg Bool.false_ne_true] at h1
      cases hint : d.integrar with
      | false =>
        rw [hint] at h1
        simp only [if_neg Bool.false_ne_true] at h1
        cases h1
        exact ⟨[], [], hs, by simp, fun _ => rfl, by simp, fun _ => rfl, by simp⟩
      | true =>
        rw [hint] at h1
        simp only [if_pos rfl] at h1
        cases hI : lib.integrate simb with
        | error e =>
          rw [show (Function.init lib simb "blue").integrate lib = .error e by
            simp [Function.integrate, Function.init, hI, Except.map]] at h1
          cases h1
        | ok ie =>
          rw [show (Function.init lib simb "blue").integrate lib
              = .ok (Function.init lib ie "green") by
            simp [Function.integrate, Function.init, hI, Except.map]] at h1
          simp only [Except.map] at h1
          cases h1
          exact ⟨[], [Function.init lib ie "green"], hs, by simp,
            fun _ => rfl, fun _ => ⟨ie, rfl, rfl⟩, by simp, by simp⟩
    | true =>
      rw [hder] at h1
      simp only [if_pos rfl] at h1
      cases hD : lib.diff simb with
      | error e =>
        rw [show (Function.init lib simb "blue").derive lib = .error e by
          simp [Function.derive, Function.init, hD, Except.map]] at h1
        cases h1
      | ok de =>
        rw [show (Function.init lib simb "blue").derive lib
            = .ok (Function.init lib de "red") by
          simp [Function.derive, Function.init, hD, Except.map]] at h1
        simp only [Except.map] at h1
        cases hint : d.integrar with
        | false =>
          rw [hint] at h1
          simp only [if_neg Bool.false_ne_true] at h1
          cases h1
          exact ⟨[Function.init lib de "red"], [], hs,
            fun _ => ⟨de, rfl, rfl⟩, by simp, by simp, fun _ => rfl, by simp⟩
        | true =>
          rw [hint] at h1
          simp only [if_pos rfl] at h1
          cases hI : lib.integrate simb with
          | error e =>
            rw [show (Function.init lib simb "blue").integrate lib = .error e by
              simp [Function.integrate, Function.init, hI, Except.map]] at h1
            cases h1
          | ok ie =>
            rw [show (Function.init lib simb "blue").integrate lib
                = .ok (Function.init lib ie "green") by
              simp [Function.integrate, Function.init, hI, Except.map]] at h1
            simp only [Except.map] at h1
            cases h1
            exact ⟨[Function.init lib de "red"], [Function.init lib ie "green"],
              hs, fun _ => ⟨de, rfl, rfl⟩, by simp, fun _ => ⟨ie, rfl, rfl⟩,
              by simp, by simp⟩

theorem computeFunciones_empty (lib : SymLib Expr) (d : InputData)
    (h : d.funcion = "") : computeFunciones lib d = .ok [] := by
  simp [computeFunciones, h]

theorem boton_graficar_build_error (lib : SymLib Expr) (d : InputData)
    (s : AppState Expr) (e : Err) (h : computeFunciones lib d = .error e) :
    boton_graficar lib d s = { s with console := s.console ++ ["Error: " ++ e] } := by
  unfold boton_graficar
  rw [h]

theorem boton_graficar_nil (lib : SymLib Expr) (d : InputData)
    (s : AppState Expr) (h : computeFunciones lib d = .ok []) :
    boton_graficar lib d s = s := by
  unfold boton_graficar
  rw [h]
  simp

theorem boton_graficar_plot_ok (lib : SymLib Expr) (d : InputData)
    (s : AppState Expr) (fns : List (Function Expr)) (yss : List (List Rat))
    (h1 : computeFunciones lib d = .ok fns) (hne : fns ≠ [])
    (h2 : evalGrid fns = .ok yss) :
    boton_graficar lib d s =
      update_graphic
        { s with figure :=
            ⟨{ configure_axes AxesState.fresh with
                curves := (fns.zip yss).map fun p => mkCurve lib p.1 p.2
                legend := true }⟩ } := by
  unfold boton_graficar
  rw [h1]
  dsimp only
  rw [if_neg (by simpa using hne)]
  unfold FigureBuilder.plot_function FigureBuilder.clear
  rw [plotLoop_ok lib fns _ yss h2]
  simp [configure_axes, AxesState.fresh]

theorem boton_graficar_plot_err (lib : SymLib Expr) (d : InputData)
    (s : AppState Expr) (fns : List (Function Expr)) (e : Err)
    (h1 : computeFunciones lib d = .ok fns) (hne : fns ≠ [])
    (h2 : evalGrid fns = .error e) :
    boton_graficar lib d s =
      { s with
        figure := ⟨(plotLoop lib (configure_axes AxesState.fresh) fns).1⟩
        console := s.console ++ ["Error: " ++ e] } := by
  unfold boton_graficar
  rw [h1]
  dsimp only
  rw [if_neg (by simpa using hne)]
  unfold FigureBuilder.plot_function FigureBuilder.clear
  have hp : plotLoop lib (configure_axes AxesState.fresh) fns
      = ((plotLoop lib (configure_axes AxesState.fresh) fns).1, some e) := by
    rw [← plotLoop_err lib fns (configure_axes AxesState.fresh) e h2]
  rw [hp]

theorem evalGrid_length (fns : List (Function Expr)) :
    ∀ yss : List (List Rat), evalGrid fns = .ok yss →
      yss.length = fns.length := by
  induction fns with
  | nil => intro yss h; rw [evalGrid] at h; cases h; rfl
  | cons f rest ih =>
    intro yss h
    rw [evalGrid] at h
    cases hf : f.evaluate (linspace (-50) 50 300) with
    | error e => rw [hf] at h; cases h
    | ok ys =>
      rw [hf] at h
      cases hr : evalGrid rest with
      | error e => rw [hr] at h; cases h
      | ok yss' =>
        rw [hr] at h
        cases h
        simpa using ih yss' hr

theorem evalGrid_get (fns : List (Function Expr)) :
    ∀ (yss : List (List Rat)), evalGrid fns = .ok yss →
      ∀ (i : Nat) (hi : i < fns.length) (hj : i < yss.length),
        (fns.get ⟨i, hi⟩).evaluate (linspace (-50) 50 300)
          = .ok (yss.get ⟨i, hj⟩) := by
  induction fns with
  | nil => intro yss h i hi hj; cases hi
  | cons f rest ih =>
    intro yss h i hi hj
    rw [evalGrid] at h
    cases hf : f.evaluate (linspace (-50) 50 300) with
    | error e => rw [hf] at h; cases h
    | ok ys =>
      rw [hf] at h
      cases hr : evalGrid rest with
      | error e => rw [hr] at h; cases h
      | ok yss' =>
        rw [hr] at h
        cases h
        cases i with
        | zero => simpa using hf
        | succ n => simpa using ih yss' hr n (by simpa using hi) (by simpa using hj)

theorem plotLoop_curves_mem (lib : SymLib Expr) (fns : List (Function Expr)) :
    ∀ (ax : AxesState) (c : Curve), c ∈ ((plotLoop lib ax fns).1).curves →
      c ∈ ax.curves ∨ c.xpoints = linspace (-50) 50 300 := by
  induction fns with
  | nil => intro ax c hc; exact Or.inl hc
  | cons f rest ih =>
    intro ax c
    rw [plotLoop]
    cases hf : f.evaluate (linspace (-50) 50 300) with
    | error e => intro hc; exact Or.inl hc
    | ok ys =>
      intro hc
      rcases ih _ c hc with h | h
      · rcases List.mem_append.mp h with h' | h'
        · exact Or.inl h'
        · right
          rw [List.mem_singleton.mp h']
          rfl
      · exact Or.inr h

theorem linspace_get (a b : Rat) (n : Nat) (i : Nat)
    (hi : i < (linspace a b n).length) :
    (linspace a b n).get ⟨i, hi⟩ = a + (b - a) * (i : Rat) / ((n : Rat) - 1) := by
  simp only [linspace, List.get_eq_getElem, List.getElem_map, List.getElem_range]

end Graficador

namespace Graficador

/-! ## The claims -/

variable {Expr : Type}

/-- **C2.** For every input (expression string, derive flag, integrate
flag), if any step of the plot action fails — `sympify` on a malformed
expression, `diff`/`integrate` on non-differentiable/non-integrable
input, or an evaluation error inside `plot_function` — the exception is
caught at the single top-level handler of `boton_graficar` and printed to
the console, and the user-visible plot state is unchanged: the canvas is
never redrawn (`update_graphic` is only reached on full success), so the
set of curves displayed to the user equals the set displayed before the
press. -/
theorem C2_failure_caught_display_unchanged (lib : SymLib Expr)
    (d : InputData) (s : AppState Expr) (e : Err)
    (h : graficarError lib d = some e) :
    (boton_graficar lib d s).rendered = s.rendered ∧
    (boton_graficar lib d s).redrawCount = s.redrawCount ∧
    (boton_graficar lib d s).console = s.console ++ ["Error: " ++ e] := by
  unfold graficarError at h
  cases hc : computeFunciones lib d with
  | error e0 =>
    rw [hc] at h
    simp only [Option.some.injEq] at h
    subst h
    rw [boton_graficar_build_error lib d s e0 hc]
    exact ⟨rfl, rfl, rfl⟩
  | ok fns =>
    rw [hc] at h
    dsimp only at h
    by_cases hne : fns = []
    · subst hne
      simp at h
    · rw [if_neg (by simpa using hne)] at h
      cases hg : evalGrid fns with
      | ok yss => rw [hg] at h; simp at h
      | error e0 =>
        rw [hg] at h
        simp only [Option.some.injEq] at h
        subst h
        rw [boton_graficar_plot_err lib d s fns e0 hc hne hg]
        exact ⟨rfl, rfl, rfl⟩

/-- Witness for C2: pressing plot with the malformed expression `"bad"`
prints the sympify error and leaves the rendered canvas untouched. -/
theorem C2_witness :
    (boton_graficar toyLib ⟨"bad", false, false⟩ (initState String)).rendered
        = (initState String).rendered ∧
    (boton_graficar toyLib ⟨"bad", false, false⟩ (initState String)).console
        = (initState String).console ++ ["Error: " ++ "SympifyError"] :=
  ⟨(C2_failure_caught_display_unchanged toyLib ⟨"bad", false, false⟩
      (initState String) "SympifyError" rfl).1,
    (C2_failure_caught_display_unchanged toyLib ⟨"bad", false, false⟩
      (initState String) "SympifyError" rfl).2.2⟩

/-- **C4.** `derive` and `integrate` each return a new record built only
from the derivative (resp. integral) of the receiver's symbolic
expression — colored red resp. green, with its own freshly lambdified
callable and no field referring back to the receiver — and the result
depends on nothing of the receiver but its symbolic expression (in
particular not on its color).  The receiver itself is unchanged: in the
source neither method assigns any attribute of `self`, which the
embedding reflects by the methods being pure functions of the record. -/
theorem C4_derive_integrate_new_records (lib : SymLib Expr)
    (f : Function Expr) :
    (∀ de, lib.diff f.symbolic_function = .ok de →
      f.derive lib = .ok (Function.init lib de "red")) ∧
    (∀ ie, lib.integrate f.symbolic_function = .ok ie →
      f.integrate lib = .ok (Function.init lib ie "green")) ∧
    (∀ g : Function Expr, g.symbolic_function = f.symbolic_function →
      g.derive lib = f.derive lib ∧ g.integrate lib = f.integrate lib) := by
  refine ⟨?_, ?_, ?_⟩
  · intro de h
    simp [Function.derive, h, Except.map]
  · intro ie h
    simp [Function.integrate, h, Except.map]
  · intro g hg
    constructor
    · simp [Function.derive, hg]
    · simp [Function.integrate, hg]

/-- Witness for C4: concrete derivative and integral records of the
record for `"x"`. -/
theorem C4_witness :
    (Function.init toyLib "x" "blue").derive toyLib
        = .ok (Function.init toyLib "Dx" "red") ∧
    (Function.init toyLib "x" "blue").integrate toyLib
        = .ok (Function.init toyLib "Ix" "green") :=
  ⟨(C4_derive_integrate_new_records toyLib (Function.init toyLib "x" "blue")).1
      "Dx" rfl,
    (C4_derive_integrate_new_records toyLib (Function.init toyLib "x" "blue")).2.1
      "Ix" rfl⟩

/-- **C5.** Every operation of the backend equals the single library call
it delegates to, with no retry, caching, batching or recovery:
`string_to_symbolic` is `sympify`, `symbolic_to_callable` is `lambdify`,
`derive` wraps one `diff` call, `integrate` wraps one `integrate` call,
and `evaluate` is the lambdified callable applied to the samples. -/
theorem C5_operations_are_single_library_calls (lib : SymLib Expr)
    (s : String) (e : Expr) (c : String) (xs : List Rat) :
    string_to_symbolic lib s = spec_string_to_symbolic lib s ∧
    symbolic_to_callable lib e = lib.lambdify e ∧
    (Function.init lib e c).derive lib = spec_derive lib e ∧
    (Function.init lib e c).integrate lib = spec_integrate lib e ∧
    (Function.init lib e c).evaluate xs = spec_evaluate lib e xs :=
  ⟨rfl, rfl, rfl, rfl, rfl⟩

/-- **C8.** For every state of the two checkboxes, pressing the plot
button while the text field is empty leaves the application state
literally unchanged: the record list stays empty, so the `if funciones:`
guard fails and neither `clear`, nor `plot_function`, nor the canvas
redraw is reached. -/
theorem C8_empty_entry_noop (lib : SymLib Expr) (d : InputData)
    (s : AppState Expr) (h : d.funcion = "") :
    boton_graficar lib d s = s :=
  boton_graficar_nil lib d s (computeFunciones_empty lib d h)

/-- Witness for C8: an empty text field with both checkboxes set leaves
the initial state untouched. -/
theorem C8_witness :
    boton_graficar toyLib ⟨"", true, true⟩ (initState String)
      = initState String :=
  C8_empty_entry_noop toyLib ⟨"", true, true⟩ (initState String) rfl

set_option maxRecDepth 8000 in
/-- **C1 is false as stated**: it quantifies over *every* press of the
plot button, but a press with an empty text field produces no records
(the build returns the empty list) while leaving every previously
displayed record on the plot surface.  Concretely: after plotting `x`
from the initial state, a plot press with empty text field produces the
empty record set, yet one curve is still displayed afterwards, so the
displayed set is not the set produced by that press and the old record
was not discarded. -/
theorem C1_counterexample :
    computeFunciones toyLib ⟨"", false, false⟩ = .ok [] ∧
    (boton_graficar toyLib ⟨"", false, false⟩
        (boton_graficar toyLib ⟨"x", false, false⟩ (initState String))
      ).figure.axe.curves.length = 1 :=
  ⟨rfl, rfl⟩

/-- **C1 (amended).** For every press of the plot button with a
non-empty expression whose whole pipeline succeeds, and for every press
of the clear button, the set of curve records displayed on the plot
surface afterwards is exactly the set produced by that action (the built
records' curves for plot, empty for clear): every record displayed
before the action is discarded, because a successful plot always clears
first and a clear empties the axes, and in both cases the canvas is
redrawn so the displayed curves match the action. -/
theorem C1_amended_display_matches_action (lib : SymLib Expr)
    (d : InputData) (s : AppState Expr) (fns : List (Function Expr))
    (yss : List (List Rat)) (h0 : d.funcion ≠ "")
    (h1 : computeFunciones lib d = .ok fns)
    (h2 : evalGrid fns = .ok yss) :
    ((boton_graficar lib d s).figure.axe.curves
        = (fns.zip yss).map (fun p => mkCurve lib p.1 p.2) ∧
      (boton_graficar lib d s).rendered = (boton_graficar lib d s).figure) ∧
    ∀ t : AppState Expr,
      (boton_limpiar t).figure.axe.curves = [] ∧
      (boton_limpiar t).rendered = (boton_limpiar t).figure := by
  have hne : fns ≠ [] := by
    obtain ⟨e, dl, il, -, -, -, -, -, hfns⟩ :=
      computeFunciones_shape lib d fns h0 h1
    subst hfns
    simp
  rw [boton_graficar_plot_ok lib d s fns yss h1 hne h2]
  exact ⟨⟨rfl, rfl⟩, fun t => ⟨rfl, rfl⟩⟩

set_option maxRecDepth 8000 in
/-- Witness for the amended C1: plotting `x` from the initial state
displays exactly the one produced curve. -/
theorem C1_witness :
    (boton_graficar toyLib ⟨"x", false, false⟩ (initState String)).figure.axe.curves
      = ([Function.init toyLib "x" "blue"].zip [linspace (-50) 50 300]).map
          (fun p => mkCurve toyLib p.1 p.2) :=
  (C1_amended_display_matches_action toyLib ⟨"x", false, false⟩
    (initState String) [Function.init toyLib "x" "blue"]
    [linspace (-50) 50 300] (by simp) rfl rfl).1.1

/-- **C3.** For every list of records whose evaluations all succeed,
`plot_function` plots, for each `Function` in the list and in order,
exactly the pair `(xpoints, function.evaluate(xpoints))` with the
record's label and color (then turns the legend on and raises nothing):
the resulting curves are the zip of the records with their evaluation
results, and the i-th evaluation result is precisely what
`Function.evaluate` — the lambdified library evaluation — returns on the
sampled domain. -/
theorem C3_plot_function_plots_evaluations (lib : SymLib Expr)
    (fb : FigureBuilder) (fns : List (Function Expr))
    (yss : List (List Rat)) (h : evalGrid fns = .ok yss) :
    fb.plot_function lib fns =
      ({ axe := { fb.axe with
          curves := fb.axe.curves
            ++ (fns.zip yss).map fun p => mkCurve lib p.1 p.2
          legend := true } }, none) ∧
    yss.length = fns.length ∧
    ∀ (i : Nat) (hi : i < fns.length) (hj : i < yss.length),
      (fns.get ⟨i, hi⟩).evaluate (linspace (-50) 50 300)
        = .ok (yss.get ⟨i, hj⟩) := by
  refine ⟨?_, evalGrid_length fns yss h, evalGrid_get fns yss h⟩
  unfold FigureBuilder.plot_function
  rw [plotLoop_ok lib fns fb.axe yss h]

set_option maxRecDepth 8000 in
/-- Witness for C3: one record, one evaluation, lengths agree. -/
theorem C3_witness :
    ([linspace (-50) 50 300] : List (List Rat)).length
      = [Function.init toyLib "x" "blue"].length :=
  (C3_plot_function_plots_evaluations toyLib FigureBuilder.init
    [Function.init toyLib "x" "blue"] [linspace (-50) 50 300] rfl).2.1

/-- **C9.** For every non-empty expression accepted by the build, the
record list of a plot action is ordered: the original function first,
always present and always colored blue (the constructor default), then
its derivative (red) exactly when the derive checkbox is set, then its
integral (green) exactly when the integrate checkbox is set — so the
list has length 1, 2 or 3 according to the checkboxes. -/
theorem C9_record_list_ordered (lib : SymLib Expr) (d : InputData)
    (fns : List (Function Expr)) (h0 : d.funcion ≠ "")
    (h1 : computeFunciones lib d = .ok fns) :
    ∃ e dl il,
      lib.sympify d.funcion = .ok e ∧
      fns = Function.init lib e "blue" :: (dl ++ il) ∧
      (d.derivar = true →
        ∃ de, lib.diff e = .ok de ∧ dl = [Function.init lib de "red"]) ∧
      (d.derivar = false → dl = []) ∧
      (d.integrar = true →
        ∃ ie, lib.integrate e = .ok ie ∧ il = [Function.init lib ie "green"]) ∧
      (d.integrar = false → il = []) ∧
      fns.length = 1 + (if d.derivar then 1 else 0)
        + (if d.integrar then 1 else 0) := by
  obtain ⟨e, dl, il, hs, hdt, hdf, hit, hif, hfns⟩ :=
    computeFunciones_shape lib d fns h0 h1
  refine ⟨e, dl, il, hs, hfns, hdt, hdf, hit, hif, ?_⟩
  subst hfns
  cases hder : d.derivar with
  | false =>
    rw [hdf hder]
    cases hint : d.integrar with
    | false => rw [hif hint]; simp
    | true =>
      obtain ⟨ie, -, hil⟩ := hit hint
      rw [hil]
      simp
  | true =>
    obtain ⟨de, -, hdl⟩ := hdt hder
    rw [hdl]
    cases hint : d.integrar with
    | false => rw [hif hint]; simp
    | true =>
      obtain ⟨ie, -, hil⟩ := hit hint
      rw [hil]
      simp

/-- Witness for C9: `x` with both checkboxes set yields exactly
[blue original, red derivative, green integral]. -/
theorem C9_witness :
    ∃ e dl il,
      toyLib.sympify "x" = .ok e ∧
      [Function.init toyLib "x" "blue", Function.init toyLib "Dx" "red",
          Function.init toyLib "Ix" "green"]
        = Function.init toyLib e "blue" :: (dl ++ il) ∧
      (true = true →
        ∃ de, toyLib.diff e = .ok de ∧ dl = [Function.init toyLib de "red"]) ∧
      (true = false → dl = []) ∧
      (true = true →
        ∃ ie, toyLib.integrate e = .ok ie
          ∧ il = [Function.init toyLib ie "green"]) ∧
      (true = false → il = []) ∧
      ([Function.init toyLib "x" "blue", Function.init toyLib "Dx" "red",
          Function.init toyLib "Ix" "green"].length)
        = 1 + (if true then 1 else 0) + (if true then 1 else 0) :=
  C9_record_list_ordered toyLib ⟨"x", true, true⟩
    [Function.init toyLib "x" "blue", Function.init toyLib "Dx" "red",
      Function.init toyLib "Ix" "green"] (by simp) rfl

/-- **C6.** The plot surface has the fixed range −50..50 on both axes:
the range is established at construction (`FigureBuilder.__init__` calls
`_configure_axes`), restored by every clear action — which also resets
the surface to zero curves — and preserved by `plot_function` (in the
source, `set_xlim`/`set_ylim` disable autoscaling, so plotting never
moves the limits; in the embedding the loop never touches them).  Hence
every state reachable by button presses keeps both limits at −50..50. -/
theorem C6_fixed_axes_range (lib : SymLib Expr) (s : AppState Expr)
    (h : Reachable lib s) :
    (s.figure.axe.xlim = (-50, 50) ∧ s.figure.axe.ylim = (-50, 50)) ∧
    (FigureBuilder.init.axe.xlim = (-50, 50)
      ∧ FigureBuilder.init.axe.ylim = (-50, 50)) ∧
    (∀ fb : FigureBuilder, fb.clear.axe.xlim = (-50, 50)
      ∧ fb.clear.axe.ylim = (-50, 50) ∧ fb.clear.axe.curves = []) ∧
    (∀ (fb : FigureBuilder) (fns : List (Function Expr)),
      ((fb.plot_function lib fns).1).axe.xlim = fb.axe.xlim
        ∧ ((fb.plot_function lib fns).1).axe.ylim = fb.axe.ylim) := by
  have hplot : ∀ (fb : FigureBuilder) (fns : List (Function Expr)),
      ((fb.plot_function lib fns).1).axe.xlim = fb.axe.xlim
        ∧ ((fb.plot_function lib fns).1).axe.ylim = fb.axe.ylim := by
    intro fb fns
    have h1 := plotLoop_xlim lib fns fb.axe
    have h2 := plotLoop_ylim lib fns fb.axe
    unfold FigureBuilder.plot_function
    rcases hp : plotLoop lib fb.axe fns with ⟨ax, o⟩
    rw [hp] at h1 h2
    cases o with
    | none => exact ⟨h1, h2⟩
    | some e => exact ⟨h1, h2⟩
  refine ⟨?_, ⟨rfl, rfl⟩, fun fb => ⟨rfl, rfl, rfl⟩, hplot⟩
  unfold Reachable at h
  induction h with
  | refl => exact ⟨rfl, rfl⟩
  | tail hab hbc ih =>
    rename_i b c
    cases hbc with
    | graficar d =>
      cases hc : computeFunciones lib d with
      | error e =>
        rw [boton_graficar_build_error lib d b e hc]
        exact ih
      | ok fns =>
        by_cases hne : fns = []
        · subst hne
          rw [boton_graficar_nil lib d b hc]
          exact ih
        · cases hg : evalGrid fns with
          | ok yss =>
            rw [boton_graficar_plot_ok lib d b fns yss hc hne hg]
            exact ⟨rfl, rfl⟩
          | error e =>
            rw [boton_graficar_plot_err lib d b fns e hc hne hg]
            refine ⟨?_, ?_⟩
            · exact plotLoop_xlim lib fns (configure_axes AxesState.fresh)
            · exact plotLoop_ylim lib fns (configure_axes AxesState.fresh)
    | limpiar => exact ⟨rfl, rfl⟩

/-- Witness for C6: the initial state (zero presses) has the fixed
range. -/
theorem C6_witness :
    (initState String).figure.axe.xlim = (-50, 50) ∧
    (initState String).figure.axe.ylim = (-50, 50) :=
  (C6_fixed_axes_range toyLib (initState String)
    Relation.ReflTransGen.refl).1

/-- **C7.** The outcome of a plot action is a deterministic function of
exactly the three user-facing inputs returned by `get_data` — the text
field's string and the two checkbox booleans — and of nothing else in
the application state: the record build depends only on those inputs,
and two presses with equal inputs from two arbitrary application states
plot identical curve sets (the figure is cleared before plotting, so no
prior state leaks in).  The embedding has no file, CLI, environment or
persisted-state inputs at all, mirroring the source. -/
theorem C7_outcome_function_of_inputs (lib : SymLib Expr)
    (d1 d2 : InputData) (s1 s2 : AppState Expr)
    (hf : d1.funcion = d2.funcion) (hd : d1.derivar = d2.derivar)
    (hi : d1.integrar = d2.integrar) :
    computeFunciones lib d1 = computeFunciones lib d2 ∧
    ∀ fns yss, computeFunciones lib d1 = .ok fns → fns ≠ [] →
      evalGrid fns = .ok yss →
      (boton_graficar lib d1 s1).figure.axe.curves
        = (boton_graficar lib d2 s2).figure.axe.curves ∧
      (boton_graficar lib d1 s1).rendered.axe.curves
        = (boton_graficar lib d2 s2).rendered.axe.curves := by
  have hdd : d1 = d2 := by
    cases d1
    cases d2
    simp_all
  subst hdd
  refine ⟨rfl, ?_⟩
  intro fns yss h1 hne h2
  rw [boton_graficar_plot_ok lib d1 s1 fns yss h1 hne h2,
    boton_graficar_plot_ok lib d1 s2 fns yss h1 hne h2]
  exact ⟨rfl, rfl⟩

set_option maxRecDepth 8000 in
/-- Witness for C7: the same press from the initial state and from a
cleared different state displays the same curves. -/
theorem C7_witness :
    (boton_graficar toyLib ⟨"x", false, false⟩ (initState String)).figure.axe.curves
      = (boton_graficar toyLib ⟨"x", false, false⟩
          (boton_limpiar (initState String))).figure.axe.curves :=
  ((C7_outcome_function_of_inputs toyLib ⟨"x", false, false⟩
      ⟨"x", false, false⟩ (initState String) (boton_limpiar (initState String))
      rfl rfl rfl).2 [Function.init toyLib "x" "blue"]
      [linspace (-50) 50 300] rfl (by simp) rfl).1

/-- **C10.** Every curve that `plot_function` adds (any curve of the
resulting axes that was not already present) has as sample points
exactly `np.linspace(-50, 50, 300)` — the same grid for every function
of one plot action — and that grid holds exactly 300 evenly spaced
points from −50 to 50 inclusive: its i-th point is −50 + 100·i/299. -/
theorem C10_sample_grid (lib : SymLib Expr) (fb : FigureBuilder)
    (fns : List (Function Expr)) :
    (∀ c ∈ ((fb.plot_function lib fns).1).axe.curves,
      c ∈ fb.axe.curves ∨ c.xpoints = linspace (-50) 50 300) ∧
    (linspace (-50) 50 300).length = 300 ∧
    ∀ (i : Nat) (hi : i < (linspace (-50) 50 300).length),
      (linspace (-50) 50 300).get ⟨i, hi⟩
        = -50 + 100 * (i : Rat) / 299 := by
  refine ⟨?_, by simp [linspace], ?_⟩
  · intro c hc
    have hmem := plotLoop_curves_mem lib fns fb.axe c
    unfold FigureBuilder.plot_function at hc
    rcases hp : plotLoop lib fb.axe fns with ⟨ax, o⟩
    rw [hp] at hc hmem
    cases o with
    | none => exact hmem (by simpa using hc)
    | some e => exact hmem (by simpa using hc)
  · intro i hi
    rw [linspace_get]
    norm_num

/-- Witness for C10: the first sample point of the grid is −50. -/
theorem C10_witness :
    (linspace (-50) 50 300).get ⟨0, by simp [linspace]⟩
      = -50 + 100 * ((0 : Nat) : Rat) / 299 :=
  (C10_sample_grid toyLib FigureBuilder.init []).2.2 0 (by simp [linspace])

end Graficador
